import Mathlib

/-!
Verification of the web-search safety layer of the SubSnap digest tool:
the eligibility scorer, the daily quota/cost tracker, and the circuit
breaker, as implemented in `src/services/web_search_service.py`,
`src/handlers/cost_tracker.py`, `src/core/validators.py` and
`src/core/constants.py`.

Modelling conventions:
* timestamps are rationals (seconds); `datetime.now() - last_failure`
  becomes subtraction of rationals,
* monetary amounts are rationals (`0.03` becomes `3/100`),
* the persisted JSON files are modelled as explicit inputs
  (`Option`/`PersistedUsage`), with `none`/`corrupt` covering the
  missing-file and exception paths,
* the Python standard-library pieces the code calls out to
  (`urllib.parse.urlparse` and the `re` engine inside
  `extract_product_mentions`) are abstracted as function parameters in a
  `ValidatorOracle`; everything written in the repository itself is
  translated directly.
-/

namespace SubSnap

/-- The three circuit-breaker states stored in the `state` field of the
circuit JSON record: `'closed'`, `'open'`, `'half_open'`. -/
inductive CBState where
  | closed
  | open_
  | halfOpen
deriving DecidableEq, Repr

/-- The circuit-breaker record persisted by `WebSearchCircuitBreaker`:
`{'state': ..., 'failure_count': ..., 'last_failure': ...}`. -/
structure CircuitState where
  state : CBState
  failure_count : Nat
  last_failure : Option ℚ
deriving DecidableEq, Repr

/-- The fresh record returned by `load_state` when no state file exists
(and by its exception handler). -/
def initial_circuit_state : CircuitState :=
  { state := CBState.closed, failure_count := 0, last_failure := none }

/-- `WebSearchCircuitBreaker.load_state`.  `persisted = none` models a
missing state file; a persisted open record with `last_failure = none`
models the `datetime.fromisoformat(None)` `TypeError`, which the
`except` clause turns into the fresh closed record. -/
def load_state (recovery_timeout : ℚ) (persisted : Option CircuitState)
    (now : ℚ) : CircuitState :=
  match persisted with
  | none => initial_circuit_state
  | some s =>
    if s.state = CBState.open_ then
      match s.last_failure with
      | some lf =>
        if now - lf > recovery_timeout then
          { s with state := CBState.halfOpen, failure_count := 0 }
        else s
      | none => initial_circuit_state
    else s

/-- `WebSearchCircuitBreaker.can_call`:
`self.state['state'] in ['closed', 'half_open']`. -/
def can_call (s : CircuitState) : Bool :=
  decide (s.state = CBState.closed ∨ s.state = CBState.halfOpen)

/-- `WebSearchCircuitBreaker.record_success`. -/
def record_success (_s : CircuitState) : CircuitState :=
  { state := CBState.closed, failure_count := 0, last_failure := none }

/-- `WebSearchCircuitBreaker.record_failure` at wall-clock time `now`. -/
def record_failure (failure_threshold : Nat) (now : ℚ)
    (s : CircuitState) : CircuitState :=
  let c := s.failure_count + 1
  { state := if failure_threshold ≤ c then CBState.open_ else s.state
    failure_count := c
    last_failure := some now }

/-- `k` consecutive `record_failure` calls (all stamped `now`). -/
def record_failures (failure_threshold : Nat) (now : ℚ) :
    Nat → CircuitState → CircuitState
  | 0, s => s
  | k + 1, s =>
      record_failure failure_threshold now
        (record_failures failure_threshold now k s)

/-- One observable event on the breaker: a recorded success, a recorded
failure, or a reload of the persisted state (the lazy admission-check
transition in `load_state`). -/
inductive CBEvent where
  | success
  | failure (now : ℚ)
  | loadCheck (now : ℚ)

/-- The state transition performed by one event. -/
def cb_step (failure_threshold : Nat) (recovery_timeout : ℚ)
    (s : CircuitState) : CBEvent → CircuitState
  | CBEvent.success => record_success s
  | CBEvent.failure now => record_failure failure_threshold now s
  | CBEvent.loadCheck now => load_state recovery_timeout (some s) now

/-- Running a sequence of events from the initial breaker state. -/
def cb_run (failure_threshold : Nat) (recovery_timeout : ℚ)
    (events : List CBEvent) : CircuitState :=
  events.foldl (cb_step failure_threshold recovery_timeout)
    initial_circuit_state

/-- One entry of the `searches` log kept by `CostTracker.record_usage`. -/
structure SearchRecord where
  timestamp : String
  description : String
  cost : ℚ
  success : Bool
deriving DecidableEq, Repr

/-- The daily usage record persisted by `CostTracker`:
`{'date': ..., 'searches_count': ..., 'total_cost': ..., 'searches': ...}`. -/
structure UsageData where
  date : String
  searches_count : Nat
  total_cost : ℚ
  searches : List SearchRecord
deriving DecidableEq, Repr

/-- What `CostTracker.load_usage_data` finds on disk: no file, an
unreadable or unparsable file (the exception path), or a stored record. -/
inductive PersistedUsage where
  | missing
  | corrupt
  | stored (d : UsageData)
deriving DecidableEq, Repr

/-- The fresh zeroed record `load_usage_data` builds for today. -/
def fresh_usage_data (today : String) : UsageData :=
  { date := today, searches_count := 0, total_cost := 0, searches := [] }

/-- `CostTracker.load_usage_data`, with today's date string passed in. -/
def load_usage_data (p : PersistedUsage) (today : String) : UsageData :=
  match p with
  | PersistedUsage.stored d =>
      if d.date = today then d else fresh_usage_data today
  | PersistedUsage.missing => fresh_usage_data today
  | PersistedUsage.corrupt => fresh_usage_data today

/-- The description truncation in `CostTracker.record_usage`:
`description[:50] + '...' if len(description) > 50 else description`. -/
def truncate_description (d : String) : String :=
  if d.length > 50 then d.take 50 ++ "..." else d

/-- `CostTracker.record_usage` at wall-clock `timestamp`. -/
def record_usage (timestamp description : String) (cost : ℚ)
    (success : Bool) (u : UsageData) : UsageData :=
  { u with
    searches_count := u.searches_count + 1
    total_cost := u.total_cost + cost
    searches := u.searches ++
      [{ timestamp := timestamp
         description := truncate_description description
         cost := cost
         success := success }] }

/-- `WebSearchCostTracker.can_search`.  Note the hard-coded `0.03`
per-call estimate from the source (`# Default cost per search`). -/
def can_search (daily_limit : Nat) (cost_limit : ℚ) (u : UsageData) : Bool :=
  if daily_limit ≤ u.searches_count then false
  else if u.total_cost + 3 / 100 > cost_limit then false
  else true

/-- `WebSearchCostTracker.record_search`; a `none` actual cost falls back
to the default `0.03`. -/
def record_search (timestamp post_title : String) (actual_cost : Option ℚ)
    (success : Bool) (u : UsageData) : UsageData :=
  record_usage timestamp post_title (actual_cost.getD (3 / 100)) success u

/-- `Constants.WEB_SEARCH_SCORE_THRESHOLD`. -/
def WEB_SEARCH_SCORE_THRESHOLD : Int := 30

/-- The fields of `RedditPost` consumed by the web-search scorer. -/
structure RedditPost where
  title : String
  score : Int
  url : String
  body : String
  subreddit : String

/-- The fields of `WebSearchConfig` consumed by the scorer and the
admission gate (`test_mode` only toggles diagnostic printing and is
omitted). -/
structure WebSearchConfig where
  enabled : Bool
  daily_limit : Nat
  cost_limit_per_day : ℚ
  cost_per_search : ℚ
  min_post_score : Int
  target_subreddits : List String
  trigger_keywords : List String
  external_domains : List String

/-- The Python standard-library calls made by `WebSearchValidator`,
abstracted: `urlparse(url).netloc` and the regex scan inside
`extract_product_mentions`. -/
structure ValidatorOracle where
  urlparse_netloc : String → String
  product_mentions : String → List String

/-- Python `str.lower()`, modelled as a character-wise lowering (the
source only ever compares ASCII configuration keywords and domains). -/
def str_lower (s : String) : String :=
  String.mk (s.data.map Char.toLower)

/-- Case-insensitive is irrelevant here: this is the raw Python
substring test `pat in s`, as membership of character sequences. -/
def containsSub (s pat : String) : Bool :=
  decide (pat.data <:+: s.data)

/-- `WebSearchValidator.extract_external_domains`: lowercase the netloc,
strip a leading `www.`, return it as a singleton unless empty. -/
def extract_external_domains (netlocOf : String → String)
    (url : String) : List String :=
  let domain := str_lower (netlocOf url)
  let domain := if domain.startsWith ("www.") then domain.drop 4 else domain
  if domain = "" then [] else [domain]

/-- The hard-coded non-external domains in
`WebSearchService.calculate_web_search_score`:
`['reddit.com', 'imgur.com', 'i.redd.it']`. -/
def platform_domains : List String :=
  ["reddit.com", "imgur.com", "i.redd.it"]

/-- `WebSearchService.calculate_web_search_score`, accumulating the score
in source order: target subreddit, trigger keyword (first match only),
engagement, link domains, product mentions, minimal body text. -/
def calculate_web_search_score (cfg : WebSearchConfig)
    (V : ValidatorOracle) (post : RedditPost) : Int :=
  if cfg.enabled = false then 0 else
  let title := str_lower post.title
  let body := str_lower post.body
  let score : Int := 0
  let score := if post.subreddit ∈ cfg.target_subreddits then score + 20 else score
  let title_body := title ++ " " ++ body
  let score :=
    if cfg.trigger_keywords.any (fun k => containsSub title_body (str_lower k))
    then score + 15 else score
  let score := if cfg.min_post_score ≤ post.score then score + 25 else score
  let domains := extract_external_domains V.urlparse_netloc post.url
  let score := domains.foldl
    (fun sc d =>
      if d ∈ cfg.external_domains then sc + 20
      else if d ∈ platform_domains then sc
      else sc + 10) score
  let score := if V.product_mentions title_body ≠ [] then score + 15 else score
  let score := if body.length < 100 then score + 5 else score
  score

/-- `WebSearchService.should_use_web_search`. -/
def should_use_web_search (cfg : WebSearchConfig) (V : ValidatorOracle)
    (post : RedditPost) : Bool :=
  if cfg.enabled = false then false
  else decide (WEB_SEARCH_SCORE_THRESHOLD ≤ calculate_web_search_score cfg V post)

/-- `WebSearchService.can_perform_search`, with the tracker's current
usage record and the breaker's current state passed explicitly. -/
def can_perform_search (cfg : WebSearchConfig) (V : ValidatorOracle)
    (post : RedditPost) (usage : UsageData) (cb : CircuitState) :
    Bool × String :=
  if cfg.enabled = false then
    (false, "Web search disabled in configuration")
  else if should_use_web_search cfg V post = false then
    (false, "Post doesn't meet web search criteria")
  else if can_search cfg.daily_limit cfg.cost_limit_per_day usage = false then
    (false, "Daily search limits exceeded")
  else if can_call cb = false then
    (false, "Circuit breaker is open due to previous failures")
  else
    (true, "All checks passed")

/-! ### Circuit-breaker lemmas -/

/-- Each `record_failure` increments `failure_count` by one. -/
lemma record_failures_count (th : Nat) (now : ℚ) (k : Nat) (s : CircuitState) :
    (record_failures th now k s).failure_count = s.failure_count + k := by
  induction k with
  | zero => rfl
  | succ k ih =>
      show (record_failure th now (record_failures th now k s)).failure_count = _
      simp only [record_failure]
      omega

/-- As long as the accumulated count stays below the threshold,
`record_failure` never changes the state. -/
lemma record_failures_state_stable (th : Nat) (now : ℚ) (k : Nat)
    (s : CircuitState) (h : s.failure_count + k < th) :
    (record_failures th now k s).state = s.state := by
  induction k with
  | zero => rfl
  | succ k ih =>
      have hk : s.failure_count + k < th := by omega
      show (record_failure th now (record_failures th now k s)).state = s.state
      have hc : ¬ th ≤ (record_failures th now k s).failure_count + 1 := by
        rw [record_failures_count]; omega
      simp only [record_failure, if_neg hc]
      exact ih hk

/-- Once at least one failure is recorded and the count reaches the
threshold, the state is `open_`. -/
lemma record_failures_open (th : Nat) (now : ℚ) (k : Nat) (s : CircuitState)
    (hk : 1 ≤ k) (hth : th ≤ s.failure_count + k) :
    (record_failures th now k s).state = CBState.open_ := by
  cases k with
  | zero => omega
  | succ k =>
      show (record_failure th now (record_failures th now k s)).state = _
      have hc : th ≤ (record_failures th now k s).failure_count + 1 := by
        rw [record_failures_count]; omega
      simp only [record_failure, if_pos hc]

/-- The state invariant of claim C5: `open_` implies the failure count
has reached the threshold. -/
def CBInv (th : Nat) (s : CircuitState) : Prop :=
  s.state = CBState.open_ → th ≤ s.failure_count

/-- Every single breaker event preserves `CBInv`. -/
lemma cb_step_inv (th : Nat) (tmo : ℚ) (s : CircuitState) (e : CBEvent)
    (h : CBInv th s) : CBInv th (cb_step th tmo s e) := by
  cases e with
  | success =>
      intro hs
      exact absurd hs (by simp [cb_step, record_success])
  | failure now =>
      intro hs
      have hcount : (cb_step th tmo s (CBEvent.failure now)).failure_count
          = s.failure_count + 1 := rfl
      rw [hcount]
      by_cases hc : th ≤ s.failure_count + 1
      · exact hc
      · have hst : (cb_step th tmo s (CBEvent.failure now)).state = s.state := by
          simp [cb_step, record_failure, hc]
        rw [hst] at hs
        have := h hs
        omega
  | loadCheck now =>
      intro hs
      by_cases hso : s.state = CBState.open_
      · cases hlf : s.last_failure with
        | none =>
            have heq : cb_step th tmo s (CBEvent.loadCheck now)
                = initial_circuit_state := by
              simp [cb_step, load_state, hso, hlf]
            rw [heq] at hs
            exact absurd hs (by simp [initial_circuit_state])
        | some lf =>
            by_cases ht : now - lf > tmo
            · have hst : (cb_step th tmo s (CBEvent.loadCheck now)).state
                  = CBState.halfOpen := by
                simp [cb_step, load_state, hso, hlf, ht]
              rw [hst] at hs
              exact absurd hs (by simp)
            · have heq : cb_step th tmo s (CBEvent.loadCheck now) = s := by
                simp [cb_step, load_state, hso, hlf, ht]
              rw [heq] at hs ⊢
              exact h hs
      · have heq : cb_step th tmo s (CBEvent.loadCheck now) = s := by
          simp [cb_step, load_state, hso]
        rw [heq] at hs ⊢
        exact h hs

/-- `CBInv` is preserved along any event list. -/
lemma cb_foldl_inv (th : Nat) (tmo : ℚ) (l : List CBEvent) :
    ∀ s : CircuitState, CBInv th s → CBInv th (l.foldl (cb_step th tmo) s) := by
  induction l with
  | nil => intro s h; exact h
  | cons e t ih => intro s h; exact ih _ (cb_step_inv th tmo s e h)

/-- Every state reachable from the initial breaker state satisfies `CBInv`. -/
lemma cb_run_inv (th : Nat) (tmo : ℚ) (events : List CBEvent) :
    CBInv th (cb_run th tmo events) :=
  cb_foldl_inv th tmo events initial_circuit_state
    (by intro h; simp [initial_circuit_state] at h)

/-! ### Claims about the circuit breaker -/

/-- C1, counterexample: the claim says a check performed once at least
`recovery_timeout` has elapsed finds `HalfOpen` and admits the call, but
the code requires elapsed time strictly greater than the timeout.  With
`recovery_timeout = 1800`, `last_failure = 0` and `now = 1800` the
elapsed time equals the timeout, yet the state stays `Open` and the
admission check still denies. -/
theorem c1_boundary_counterexample :
    (1800 : ℚ) - 0 ≥ 1800 ∧
    load_state 1800
      (some { state := CBState.open_, failure_count := 5, last_failure := some 0 })
      1800
      = { state := CBState.open_, failure_count := 5, last_failure := some 0 } ∧
    can_call (load_state 1800
      (some { state := CBState.open_, failure_count := 5, last_failure := some 0 })
      1800) = false := by
  have hgt : ¬ ((1800 : ℚ) - 0 > 1800) := by norm_num
  refine ⟨by norm_num, ?_, ?_⟩ <;> simp [load_state, can_call, hgt]

/-- C1, amended: starting from a persisted `Open` state with a recorded
`last_failure`, a load performed when strictly more than
`recovery_timeout` has elapsed produces `HalfOpen` and `can_call` is
true, while a load performed when at most `recovery_timeout` has elapsed
leaves the state `Open` and `can_call` is false. -/
theorem c1_open_to_halfOpen (recovery_timeout lf now : ℚ) (s : CircuitState)
    (hs : s.state = CBState.open_) (hlf : s.last_failure = some lf) :
    (now - lf > recovery_timeout →
      load_state recovery_timeout (some s) now
        = { s with state := CBState.halfOpen, failure_count := 0 } ∧
      can_call (load_state recovery_timeout (some s) now) = true) ∧
    (now - lf ≤ recovery_timeout →
      load_state recovery_timeout (some s) now = s ∧
      can_call (load_state recovery_timeout (some s) now) = false) := by
  constructor
  · intro h
    have heq : load_state recovery_timeout (some s) now
        = { s with state := CBState.halfOpen, failure_count := 0 } := by
      simp [load_state, hs, hlf, h]
    exact ⟨heq, by simp [heq, can_call]⟩
  · intro h
    have heq : load_state recovery_timeout (some s) now = s := by
      simp [load_state, hs, hlf, not_lt.mpr h]
    exact ⟨heq, by simp [heq, can_call, hs]⟩

/-- Witness for C1 at `recovery_timeout = 1800`, `last_failure = 0`,
`now = 1801`. -/
theorem c1_open_to_halfOpen_witness :
    can_call (load_state 1800
      (some { state := CBState.open_, failure_count := 5, last_failure := some 0 })
      1801) = true :=
  ((c1_open_to_halfOpen 1800 0 1801
      { state := CBState.open_, failure_count := 5, last_failure := some 0 }
      rfl rfl).1 (by norm_num)).2

/-- C4: from the initial breaker state, exactly `failure_threshold`
consecutive recorded failures (threshold at least 1) leave the state
`Open` with `can_call` false. -/
theorem c4_threshold_failures_open (th : Nat) (now : ℚ) (h : 1 ≤ th) :
    (record_failures th now th initial_circuit_state).state = CBState.open_ ∧
    can_call (record_failures th now th initial_circuit_state) = false := by
  have hst := record_failures_open th now th initial_circuit_state h
    (by simp [initial_circuit_state])
  exact ⟨hst, by simp [can_call, hst]⟩

/-- Witness for C4 at the default threshold 5. -/
theorem c4_threshold_failures_open_witness :
    (record_failures 5 0 5 initial_circuit_state).state = CBState.open_ ∧
    can_call (record_failures 5 0 5 initial_circuit_state) = false :=
  c4_threshold_failures_open 5 0 (by decide)

/-- C5: along every event sequence from the initial breaker state the
reached state is `Open` only when `failure_count` has reached the
threshold, and every single step that moves a state into `Closed` from a
non-`Closed` state resets `failure_count` to 0. -/
theorem c5_invariant (th : Nat) (tmo : ℚ) (events : List CBEvent)
    (s : CircuitState) (e : CBEvent)
    (h1 : s.state ≠ CBState.closed)
    (h2 : (cb_step th tmo s e).state = CBState.closed) :
    ((cb_run th tmo events).state = CBState.open_ →
      th ≤ (cb_run th tmo events).failure_count) ∧
    (cb_step th tmo s e).failure_count = 0 := by
  refine ⟨cb_run_inv th tmo events, ?_⟩
  cases e with
  | success => rfl
  | failure now =>
      exfalso
      by_cases hc : th ≤ s.failure_count + 1
      · have hst : (cb_step th tmo s (CBEvent.failure now)).state
            = CBState.open_ := by
          simp [cb_step, record_failure, hc]
        rw [h2] at hst
        exact absurd hst (by simp)
      · have hst : (cb_step th tmo s (CBEvent.failure now)).state = s.state := by
          simp [cb_step, record_failure, hc]
        rw [hst] at h2
        exact h1 h2
  | loadCheck now =>
      by_cases hso : s.state = CBState.open_
      · cases hlf : s.last_failure with
        | none =>
            simp [cb_step, load_state, hso, hlf, initial_circuit_state]
        | some lf =>
            by_cases ht : now - lf > tmo
            · exfalso
              have hst : (cb_step th tmo s (CBEvent.loadCheck now)).state
                  = CBState.halfOpen := by
                simp [cb_step, load_state, hso, hlf, ht]
              rw [h2] at hst
              exact absurd hst (by simp)
            · exfalso
              have heq : cb_step th tmo s (CBEvent.loadCheck now) = s := by
                simp [cb_step, load_state, hso, hlf, ht]
              rw [heq] at h2
              rw [hso] at h2
              exact absurd h2 (by simp)
      · exfalso
        have heq : cb_step th tmo s (CBEvent.loadCheck now) = s := by
          simp [cb_step, load_state, hso]
        rw [heq] at h2
        exact h1 h2

/-- Witness for C5: threshold 1, one recorded failure reaches `Open`
with count 1, and a `record_success` step from an `Open` state lands in
`Closed` with count 0. -/
theorem c5_invariant_witness :
    1 ≤ (cb_run 1 10 [CBEvent.failure 0]).failure_count ∧
    (cb_step 1 10
      { state := CBState.open_, failure_count := 3, last_failure := some 0 }
      CBEvent.success).failure_count = 0 :=
  ⟨(c5_invariant 1 10 [CBEvent.failure 0]
      { state := CBState.open_, failure_count := 3, last_failure := some 0 }
      CBEvent.success (by decide) (by decide)).1 (by decide),
   (c5_invariant 1 10 [CBEvent.failure 0]
      { state := CBState.open_, failure_count := 3, last_failure := some 0 }
      CBEvent.success (by decide) (by decide)).2⟩

/-- C10: the lazy `Open → HalfOpen` transition in `load_state` also
resets `failure_count` to 0, so from the resulting `HalfOpen` state one
recorded failure does not re-open the circuit (threshold at least 2),
any number of failures below the threshold leaves it `HalfOpen`, and
exactly `failure_threshold` consecutive failures re-open it. -/
theorem c10_halfOpen_reset (th : Nat) (timeout now now' : ℚ)
    (s : CircuitState) (lf : ℚ)
    (hs : s.state = CBState.open_) (hlf : s.last_failure = some lf)
    (helapsed : now - lf > timeout) (hth : 2 ≤ th) :
    load_state timeout (some s) now
      = { s with state := CBState.halfOpen, failure_count := 0 } ∧
    (record_failure th now'
      { s with state := CBState.halfOpen, failure_count := 0 }).state
      = CBState.halfOpen ∧
    (∀ k, k < th →
      (record_failures th now' k
        { s with state := CBState.halfOpen, failure_count := 0 }).state
        = CBState.halfOpen) ∧
    (record_failures th now' th
      { s with state := CBState.halfOpen, failure_count := 0 }).state
      = CBState.open_ := by
  refine ⟨by simp [load_state, hs, hlf, helapsed], ?_, ?_, ?_⟩
  · have hc : ¬ th ≤ 0 + 1 := by omega
    simp [record_failure, hc]
  · intro k hk
    have hstable := record_failures_state_stable th now' k
      { s with state := CBState.halfOpen, failure_count := 0 } (by simp; omega)
    simpa using hstable
  · exact record_failures_open th now' th _ (by omega) (by simp)

/-- Witness for C10 at threshold 2 with a concrete half-opened state. -/
theorem c10_halfOpen_reset_witness :
    (record_failures 2 12 2
      { state := CBState.halfOpen, failure_count := 0, last_failure := some 0 }).state
      = CBState.open_ :=
  (c10_halfOpen_reset 2 10 11 12
    { state := CBState.open_, failure_count := 2, last_failure := some 0 } 0
    rfl rfl (by norm_num) (by norm_num)).2.2.2

/-! ### Claims about the quota/cost tracker -/

/-- C2, counterexample: with `daily_limit = 15`, `cost_limit = 1`, a
configured per-call cost of `1/4`, and today's record at 4 calls and
total cost `9/10`, `can_search` allows the call even though
`9/10 + 1/4 ≤ 1` fails: the code projects a hard-coded `0.03`, not the
configured per-call cost, so the claimed iff is false. -/
theorem c2_configured_cost_counterexample :
    can_search 15 1
      { date := "2026-10-12", searches_count := 4, total_cost := 9 / 10,
        searches := [] } = true ∧
    ¬ ((4 : Nat) < 15 ∧ (9 : ℚ) / 10 + 1 / 4 ≤ 1) := by
  constructor
  · have h1 : ¬ (15 ≤ 4) := by norm_num
    have h2 : ¬ ((9 : ℚ) / 10 + 3 / 100 > 1) := by norm_num
    simp [can_search, h2]
  · intro h
    have h2 := h.2
    norm_num at h2

/-- C2, amended: `can_search` is true iff today's `searches_count` is
strictly below `daily_limit` and today's `total_cost` plus the fixed
`0.03` default per-call estimate is at most the daily cost limit. -/
theorem c2_can_search_iff (daily_limit : Nat) (cost_limit : ℚ)
    (u : UsageData) :
    can_search daily_limit cost_limit u = true ↔
      (u.searches_count < daily_limit ∧
        u.total_cost + 3 / 100 ≤ cost_limit) := by
  unfold can_search
  by_cases h1 : daily_limit ≤ u.searches_count
  · rw [if_pos h1]
    simp only [Bool.false_eq_true, false_iff, not_and]
    intro hlt
    omega
  · rw [if_neg h1]
    by_cases h2 : u.total_cost + 3 / 100 > cost_limit
    · rw [if_pos h2]
      simp only [Bool.false_eq_true, false_iff, not_and]
      intro _ hle
      exact absurd h2 (not_lt.mpr hle)
    · rw [if_neg h2]
      simp only [true_iff]
      exact ⟨by omega, not_lt.mp h2⟩

/-- C3, counterexample: in the spec scenario (`daily_limit = 5`, cost
limit `1`, per-call cost `1/4`), after four recorded calls of cost `1/4`
the admission check does not return true. -/
theorem c3_boundary_counterexample :
    can_search 5 1
      (record_search ("t4") ("p") (some (1 / 4)) true
        (record_search ("t3") ("p") (some (1 / 4)) true
          (record_search ("t2") ("p") (some (1 / 4)) true
            (record_search ("t1") ("p") (some (1 / 4)) true
              (fresh_usage_data ("2026-10-12")))))) ≠ true := by
  norm_num [can_search, record_search, record_usage, fresh_usage_data]

/-- C3, amended: after four recorded calls of cost `1/4` the record holds
`searches_count = 4` and `total_cost = 1` (exactly at the limit), yet
`can_search` returns false, because the projected cost uses the fixed
`0.03` estimate and `1 + 0.03` strictly exceeds the limit `1`. -/
theorem c3_at_limit_denied :
    (record_search ("t4") ("p") (some (1 / 4)) true
      (record_search ("t3") ("p") (some (1 / 4)) true
        (record_search ("t2") ("p") (some (1 / 4)) true
          (record_search ("t1") ("p") (some (1 / 4)) true
            (fresh_usage_data ("2026-10-12")))))).searches_count = 4 ∧
    (record_search ("t4") ("p") (some (1 / 4)) true
      (record_search ("t3") ("p") (some (1 / 4)) true
        (record_search ("t2") ("p") (some (1 / 4)) true
          (record_search ("t1") ("p") (some (1 / 4)) true
            (fresh_usage_data ("2026-10-12")))))).total_cost = 1 ∧
    can_search 5 1
      (record_search ("t4") ("p") (some (1 / 4)) true
        (record_search ("t3") ("p") (some (1 / 4)) true
          (record_search ("t2") ("p") (some (1 / 4)) true
            (record_search ("t1") ("p") (some (1 / 4)) true
              (fresh_usage_data ("2026-10-12")))))) = false := by
  refine ⟨rfl, by norm_num [record_search, record_usage, fresh_usage_data], ?_⟩
  norm_num [can_search, record_search, record_usage, fresh_usage_data]

/-- C9: loading always yields a record dated today, and whenever the
store is missing, corrupt, or holds a record for a different date, the
result is the fresh zeroed record (count 0, cost 0, empty log). -/
theorem c9_load_rollover (p : PersistedUsage) (today : String)
    (h : ∀ d, p = PersistedUsage.stored d → d.date ≠ today) :
    (∀ q : PersistedUsage, (load_usage_data q today).date = today) ∧
    load_usage_data p today = fresh_usage_data today ∧
    (load_usage_data p today).searches_count = 0 ∧
    (load_usage_data p today).total_cost = 0 ∧
    (load_usage_data p today).searches = [] := by
  have heq : load_usage_data p today = fresh_usage_data today := by
    cases p with
    | missing => rfl
    | corrupt => rfl
    | stored d =>
        show (if d.date = today then d else fresh_usage_data today) = _
        exact if_neg (h d rfl)
  refine ⟨?_, heq, by rw [heq]; rfl, by rw [heq]; rfl, by rw [heq]; rfl⟩
  intro q
  cases q with
  | missing => rfl
  | corrupt => rfl
  | stored d =>
      by_cases hd : d.date = today
      · simp [load_usage_data, hd]
      · simp [load_usage_data, hd, fresh_usage_data]

/-- Witness for C9: yesterday's record with nonzero totals rolls over to
the fresh zeroed record. -/
theorem c9_load_rollover_witness :
    load_usage_data
      (PersistedUsage.stored
        { date := "2026-10-11", searches_count := 7, total_cost := 5,
          searches := [] })
      ("2026-10-12") = fresh_usage_data ("2026-10-12") :=
  (c9_load_rollover
    (PersistedUsage.stored
      { date := "2026-10-11", searches_count := 7, total_cost := 5,
        searches := [] })
    ("2026-10-12")
    (fun d hd => by cases hd; decide)).2.1

/-! ### Claims about the scorer and the admission gate -/

/-- A trivial validator oracle: every URL parses to an empty netloc and
no product mentions are detected. -/
def V_empty : ValidatorOracle :=
  { urlparse_netloc := fun _ => "", product_mentions := fun _ => [] }

/-- A validator oracle that reports a netloc and a product mention for
every input. -/
def V_rich : ValidatorOracle :=
  { urlparse_netloc := fun _ => "www.github.com"
    product_mentions := fun s => [s] }

/-- A positive gate decision requires the enabled flag: `should_use_web_search`
returns false outright when the feature is disabled. -/
lemma should_use_true_enabled (cfg : WebSearchConfig) (V : ValidatorOracle)
    (post : RedditPost) (h : should_use_web_search cfg V post = true) :
    cfg.enabled = true := by
  cases hc : cfg.enabled with
  | true => rfl
  | false => simp [should_use_web_search, hc] at h

/-- C6: the gate checks the enabled flag, then the score threshold, then
the tracker, then the breaker, short-circuiting with a distinct reason at
the first failure; when the feature is enabled and the score is below the
threshold the answer is the criteria reason and is independent of the
tracker's and the breaker's state. -/
theorem c6_gate_order (cfg : WebSearchConfig) (V : ValidatorOracle)
    (post : RedditPost) (u u' : UsageData) (cb cb' : CircuitState) :
    (cfg.enabled = false →
      can_perform_search cfg V post u cb
        = (false, "Web search disabled in configuration")) ∧
    (cfg.enabled = true →
      calculate_web_search_score cfg V post < WEB_SEARCH_SCORE_THRESHOLD →
      can_perform_search cfg V post u cb
        = (false, "Post doesn't meet web search criteria") ∧
      can_perform_search cfg V post u cb
        = can_perform_search cfg V post u' cb') ∧
    (should_use_web_search cfg V post = true →
      can_search cfg.daily_limit cfg.cost_limit_per_day u = false →
      can_perform_search cfg V post u cb
        = (false, "Daily search limits exceeded")) ∧
    (should_use_web_search cfg V post = true →
      can_search cfg.daily_limit cfg.cost_limit_per_day u = true →
      can_call cb = false →
      can_perform_search cfg V post u cb
        = (false, "Circuit breaker is open due to previous failures")) ∧
    (should_use_web_search cfg V post = true →
      can_search cfg.daily_limit cfg.cost_limit_per_day u = true →
      can_call cb = true →
      can_perform_search cfg V post u cb = (true, "All checks passed")) ∧
    (("Web search disabled in configuration" : String)
        ≠ "Post doesn't meet web search criteria" ∧
      ("Web search disabled in configuration" : String)
        ≠ "Daily search limits exceeded" ∧
      ("Web search disabled in configuration" : String)
        ≠ "Circuit breaker is open due to previous failures" ∧
      ("Post doesn't meet web search criteria" : String)
        ≠ "Daily search limits exceeded" ∧
      ("Post doesn't meet web search criteria" : String)
        ≠ "Circuit breaker is open due to previous failures" ∧
      ("Daily search limits exceeded" : String)
        ≠ "Circuit breaker is open due to previous failures") := by
  refine ⟨?_, ?_, ?_, ?_, ?_, ?_⟩
  · intro h
    simp [can_perform_search, h]
  · intro hen hlt
    have hsu : should_use_web_search cfg V post = false := by
      simp [should_use_web_search, hen, not_le.mpr hlt]
    constructor <;> simp [can_perform_search, hen, hsu]
  · intro hsu hcs
    have hen := should_use_true_enabled cfg V post hsu
    simp [can_perform_search, hen, hsu, hcs]
  · intro hsu hcs hcc
    have hen := should_use_true_enabled cfg V post hsu
    simp [can_perform_search, hen, hsu, hcs, hcc]
  · intro hsu hcs hcc
    have hen := should_use_true_enabled cfg V post hsu
    simp [can_perform_search, hen, hsu, hcs, hcc]
  · refine ⟨?_, ?_, ?_, ?_, ?_, ?_⟩ <;> decide

/-- Witness for C6: an enabled configuration with a post scoring 5 < 30
denies with the criteria reason, unchanged when the tracker record and
breaker state are replaced by entirely different ones. -/
theorem c6_gate_order_witness :
    can_perform_search
      { enabled := true, daily_limit := 15, cost_limit_per_day := 3 / 2,
        cost_per_search := 3 / 100, min_post_score := 15,
        target_subreddits := [], trigger_keywords := [],
        external_domains := [] }
      V_empty
      { title := "t", score := 0, url := "u", body := "b", subreddit := "s" }
      (fresh_usage_data ("2026-10-12")) initial_circuit_state
      = (false, "Post doesn't meet web search criteria") ∧
    can_perform_search
      { enabled := true, daily_limit := 15, cost_limit_per_day := 3 / 2,
        cost_per_search := 3 / 100, min_post_score := 15,
        target_subreddits := [], trigger_keywords := [],
        external_domains := [] }
      V_empty
      { title := "t", score := 0, url := "u", body := "b", subreddit := "s" }
      (fresh_usage_data ("2026-10-12")) initial_circuit_state
      = can_perform_search
          { enabled := true, daily_limit := 15, cost_limit_per_day := 3 / 2,
            cost_per_search := 3 / 100, min_post_score := 15,
            target_subreddits := [], trigger_keywords := [],
            external_domains := [] }
          V_empty
          { title := "t", score := 0, url := "u", body := "b", subreddit := "s" }
          { date := "2026-10-12", searches_count := 99, total_cost := 99,
            searches := [] }
          { state := CBState.open_, failure_count := 9, last_failure := some 0 } :=
  (c6_gate_order
    { enabled := true, daily_limit := 15, cost_limit_per_day := 3 / 2,
      cost_per_search := 3 / 100, min_post_score := 15,
      target_subreddits := [], trigger_keywords := [],
      external_domains := [] }
    V_empty
    { title := "t", score := 0, url := "u", body := "b", subreddit := "s" }
    (fresh_usage_data ("2026-10-12"))
    { date := "2026-10-12", searches_count := 99, total_cost := 99,
      searches := [] }
    initial_circuit_state
    { state := CBState.open_, failure_count := 9, last_failure := some 0 }).2.1
    rfl (by decide)

/-- The score contributions of the six heuristics, as the spec describes
them: one weight per triggered signal. -/
def spec_score_contributions (cfg : WebSearchConfig) (V : ValidatorOracle)
    (post : RedditPost) : List Int :=
  [if post.subreddit ∈ cfg.target_subreddits then 20 else 0,
   if cfg.trigger_keywords.any
       (fun k => containsSub (str_lower post.title ++ " " ++ str_lower post.body)
         (str_lower k))
     then 15 else 0,
   if cfg.min_post_score ≤ post.score then 25 else 0,
   ((extract_external_domains V.urlparse_netloc post.url).map
     (fun d => if d ∈ cfg.external_domains then 20
               else if d ∈ platform_domains then 0 else 10)).sum,
   if V.product_mentions (str_lower post.title ++ " " ++ str_lower post.body) ≠ []
     then 15 else 0,
   if (str_lower post.body).length < 100 then 5 else 0]

/-- The accumulating domain loop of the scorer equals the initial value
plus the sum of per-domain weights. -/
lemma foldl_domain_weights (allow plat : List String) (l : List String)
    (init : Int) :
    l.foldl
      (fun sc d => if d ∈ allow then sc + 20
                   else if d ∈ plat then sc else sc + 10) init
      = init + (l.map
          (fun d => if d ∈ allow then 20
                    else if d ∈ plat then 0 else 10)).sum := by
  induction l generalizing init with
  | nil => simp
  | cons d t ih =>
      simp only [List.foldl_cons, List.map_cons, List.sum_cons, ih]
      by_cases h1 : d ∈ allow
      · simp only [if_pos h1]
        ring
      · by_cases h2 : d ∈ plat
        · simp only [if_neg h1, if_pos h2]
          ring
        · simp only [if_neg h1, if_neg h2]
          ring

/-- C7: with the feature enabled, the computed score is exactly the sum
of the triggered heuristic weights, and any permutation of those
contributions sums to the same score (order independence). -/
theorem c7_score_additive (cfg : WebSearchConfig) (V : ValidatorOracle)
    (post : RedditPost) (l : List Int)
    (hen : cfg.enabled = true)
    (hperm : l.Perm (spec_score_contributions cfg V post)) :
    calculate_web_search_score cfg V post
      = (spec_score_contributions cfg V post).sum ∧
    calculate_web_search_score cfg V post = l.sum := by
  have hmain : calculate_web_search_score cfg V post
      = (spec_score_contributions cfg V post).sum := by
    simp only [calculate_web_search_score, spec_score_contributions, hen,
      Bool.true_eq_false, if_false]
    rw [foldl_domain_weights]
    simp only [List.sum_cons, List.sum_nil]
    split_ifs <;> ring
  exact ⟨hmain, hmain.trans hperm.sum_eq.symm⟩

/-- Witness for C7: a target-subreddit post with a short body scores
20 + 5, matching the contribution sum in any order. -/
theorem c7_score_additive_witness :
    calculate_web_search_score
      { enabled := true, daily_limit := 15, cost_limit_per_day := 3 / 2,
        cost_per_search := 3 / 100, min_post_score := 15,
        target_subreddits := ["SideProject"], trigger_keywords := [],
        external_domains := [] }
      V_empty
      { title := "t", score := 0, url := "u", body := "b",
        subreddit := "SideProject" }
      = (spec_score_contributions
          { enabled := true, daily_limit := 15, cost_limit_per_day := 3 / 2,
            cost_per_search := 3 / 100, min_post_score := 15,
            target_subreddits := ["SideProject"], trigger_keywords := [],
            external_domains := [] }
          V_empty
          { title := "t", score := 0, url := "u", body := "b",
            subreddit := "SideProject" }).sum ∧
    calculate_web_search_score
      { enabled := true, daily_limit := 15, cost_limit_per_day := 3 / 2,
        cost_per_search := 3 / 100, min_post_score := 15,
        target_subreddits := ["SideProject"], trigger_keywords := [],
        external_domains := [] }
      V_empty
      { title := "t", score := 0, url := "u", body := "b",
        subreddit := "SideProject" }
      = ([5, 0, 0, 0, 0, 20] : List Int).sum :=
  c7_score_additive
    { enabled := true, daily_limit := 15, cost_limit_per_day := 3 / 2,
      cost_per_search := 3 / 100, min_post_score := 15,
      target_subreddits := ["SideProject"], trigger_keywords := [],
      external_domains := [] }
    V_empty
    { title := "t", score := 0, url := "u", body := "b",
      subreddit := "SideProject" }
    [5, 0, 0, 0, 0, 20] rfl (by decide)

/-- C8: with the feature disabled the score is 0 and `should_use_web_search`
is false, independently of the post's content and of what any text
analysis (validator oracle) would report. -/
theorem c8_disabled_zero (cfg : WebSearchConfig) (V V' : ValidatorOracle)
    (post post' : RedditPost) (h : cfg.enabled = false) :
    calculate_web_search_score cfg V post = 0 ∧
    should_use_web_search cfg V post = false ∧
    calculate_web_search_score cfg V post
      = calculate_web_search_score cfg V' post' ∧
    should_use_web_search cfg V post = should_use_web_search cfg V' post' := by
  refine ⟨?_, ?_, ?_, ?_⟩ <;>
    simp [calculate_web_search_score, should_use_web_search, h]

/-- Witness for C8: a disabled configuration zeroes the score of a post
that would otherwise trigger every heuristic, for both validator
oracles. -/
theorem c8_disabled_zero_witness :
    calculate_web_search_score
      { enabled := false, daily_limit := 15, cost_limit_per_day := 3 / 2,
        cost_per_search := 3 / 100, min_post_score := 15,
        target_subreddits := ["SideProject"],
        trigger_keywords := ["launched"],
        external_domains := ["github.com"] }
      V_rich
      { title := "Launched X", score := 100, url := "https://github.com/x",
        body := "b", subreddit := "SideProject" } = 0 ∧
    should_use_web_search
      { enabled := false, daily_limit := 15, cost_limit_per_day := 3 / 2,
        cost_per_search := 3 / 100, min_post_score := 15,
        target_subreddits := ["SideProject"],
        trigger_keywords := ["launched"],
        external_domains := ["github.com"] }
      V_rich
      { title := "Launched X", score := 100, url := "https://github.com/x",
        body := "b", subreddit := "SideProject" } = false :=
  ⟨(c8_disabled_zero
      { enabled := false, daily_limit := 15, cost_limit_per_day := 3 / 2,
        cost_per_search := 3 / 100, min_post_score := 15,
        target_subreddits := ["SideProject"],
        trigger_keywords := ["launched"],
        external_domains := ["github.com"] }
      V_rich V_empty
      { title := "Launched X", score := 100, url := "https://github.com/x",
        body := "b", subreddit := "SideProject" }
      { title := "t", score := 0, url := "u", body := "b", subreddit := "s" }
      rfl).1,
   (c8_disabled_zero
      { enabled := false, daily_limit := 15, cost_limit_per_day := 3 / 2,
        cost_per_search := 3 / 100, min_post_score := 15,
        target_subreddits := ["SideProject"],
        trigger_keywords := ["launched"],
        external_domains := ["github.com"] }
      V_rich V_empty
      { title := "Launched X", score := 100, url := "https://github.com/x",
        body := "b", subreddit := "SideProject" }
      { title := "t", score := 0, url := "u", body := "b", subreddit := "s" }
      rfl).2.1⟩

end SubSnap
